import Mathlib

/-!
Verification of the anti-repetition content-selection engine of the
crypto-tweet-bot repository.  The Python source is shallowly embedded:

* Python strings are Lean `String`s; `str.lower()`, `str.split()`,
  `str.strip()`, the `in` substring test, `str.replace(pat, '')`,
  `str.startswith` and `str.split('\n')` are embedded as the executable
  functions `strLower`, `pySplit`, `pyStrip`, `pyIn`, `pyReplaceAll`,
  `pyStartsWith` and `splitLines` below.
* Python dicts are association lists (`assocFind` / `assocUpsert`); Python
  sets of strings are duplicate-free lists built with `addIfAbsent`
  (insertion order replaces hash order; only membership is ever observed).
* `datetime` timestamps are integers counted in hours; the 24h / 48h / 7-day
  windows become the integer bounds 24, 48 and `days * 24`.
* The md5 content hash is abstracted as the lower-cased content itself:
  the code only relies on equal normalized content giving the equal key.
* Python float division `len(inter)/len(union) > 0.7` is embedded as the
  exact comparison `10 * |inter| > 7 * |union|`; a zero denominator is a
  `ZeroDivisionError`, embedded as `Except.error ()`.
-/

/-- Lower-casing of a whole string (Python `str.lower()`). -/
def strLower (s : String) : String := ⟨s.data.map Char.toLower⟩

/-- Splitting on whitespace runs, dropping empty pieces (Python `str.split()`). -/
def splitWsAux : List Char → List Char → List (List Char)
  | [], acc => if acc.isEmpty then [] else [acc.reverse]
  | c :: rest, acc =>
    if c.isWhitespace then
      if acc.isEmpty then splitWsAux rest [] else acc.reverse :: splitWsAux rest []
    else splitWsAux rest (c :: acc)

/-- Python `str.split()`. -/
def pySplit (s : String) : List String := (splitWsAux s.data []).map String.mk

/-- Python `str.strip()`. -/
def pyStrip (s : String) : String :=
  ⟨((s.data.dropWhile Char.isWhitespace).reverse.dropWhile Char.isWhitespace).reverse⟩

/-- Substring search on character lists: `subListAux needle hay = true` iff
`needle` occurs contiguously inside `hay` (the empty needle always occurs). -/
def subListAux (needle : List Char) : List Char → Bool
  | [] => needle.isEmpty
  | c :: rest => needle.isPrefixOf (c :: rest) || subListAux needle rest

/-- Python `needle in hay` on strings. -/
def pyIn (needle hay : String) : Bool := subListAux needle.data hay.data

/-- Python `str.startswith`. -/
def pyStartsWith (pre s : String) : Bool := pre.data.isPrefixOf s.data

/-- Removal of every occurrence of a pattern, fuel-indexed
(Python `str.replace(pat, '')`). -/
def replaceAllAux (pat : List Char) : Nat → List Char → List Char
  | 0, _ => []
  | _ + 1, [] => []
  | fuel + 1, c :: rest =>
    if !pat.isEmpty && pat.isPrefixOf (c :: rest) then
      replaceAllAux pat fuel (List.drop (pat.length - 1) rest)
    else c :: replaceAllAux pat fuel rest

/-- Python `line.replace(pat, '')`. -/
def pyReplaceAll (pat s : String) : String := ⟨replaceAllAux pat.data s.data.length s.data⟩

/-- Splitting at newline characters, keeping empty pieces
(Python `str.split(sep)` for a one-character separator). -/
def splitCharAux (sep : Char) : List Char → List Char → List (List Char)
  | [], acc => [acc.reverse]
  | c :: rest, acc =>
    if c = sep then acc.reverse :: splitCharAux sep rest []
    else splitCharAux sep rest (c :: acc)

/-- Python `response.split(c)` for a single character. -/
def splitChar (sep : Char) (s : String) : List String :=
  (splitCharAux sep s.data []).map String.mk

/-- Python `lst[-n:]`. -/
def pyLastN (n : Nat) (l : List α) : List α := l.drop (l.length - n)

/-- Set insertion on a list used as a Python `set` of strings. -/
def addIfAbsent (x : String) (l : List String) : List String :=
  if l.contains x then l else l ++ [x]

/-- Lookup in an association list (a Python dict). -/
def assocFind (k : String) : List (String × α) → Option α
  | [] => none
  | (k2, v) :: rest => if k2 = k then some v else assocFind k rest

/-- Insert-or-replace in an association list (Python `d[k] = v`). -/
def assocUpsert (k : String) (v : α) : List (String × α) → List (String × α)
  | [] => [(k, v)]
  | (k2, v2) :: rest =>
    if k2 = k then (k, v) :: rest else (k2, v2) :: assocUpsert k v rest

/-- `ContentTracker.CATEGORIES` from `helpers/content_tracker.py`. -/
def CATEGORIES : List (String × List String) :=
  [("price", ["price", "surge", "$", "rally", "market", "ath", "high", "low", "dump", "pump"]),
   ("innovation", ["launch", "update", "protocol", "tech", "scaling", "develop", "release"]),
   ("adoption", ["adopt", "user", "integration", "partnership", "mainstream", "institutional"]),
   ("regulation", ["regulation", "law", "compliance", "legal", "license", "govern"]),
   ("security", ["hack", "scam", "security", "protect", "risk", "vulnerability"]),
   ("defi", ["defi", "yield", "stake", "liquidity", "amm", "swap"]),
   ("infrastructure", ["layer2", "scaling", "network", "chain", "bridge", "protocol"]),
   ("social", ["community", "governance", "dao", "vote", "proposal"])]

/-- The names of the eight fixed categories. -/
def allCategoryNames : List String := CATEGORIES.map Prod.fst

/-- `ContentTracker._categorize_content`: a category is included iff any of
its keywords occurs as a substring of the lower-cased text. -/
def categorize_content (text : String) : List String :=
  (CATEGORIES.filter (fun p => p.2.any (fun k => pyIn k (strLower text)))).map Prod.fst

/-- An input article (`title`, `link`, `summary`; `summary` defaults to `''`
via `article.get('summary', '')` in the source). -/
structure Article where
  title : String
  link : String
  summary : String
deriving DecidableEq, Repr

/-- A stored `article_hashes` record. -/
structure ArticleRec where
  title : String
  url : String
  summary : String
  timestamp : Int
deriving DecidableEq, Repr

/-- A stored `token_mentions` record. -/
structure TokenRec where
  lastMention : Int
  mentionCount : Nat
deriving DecidableEq, Repr

/-- A stored `generated_tweets` record. -/
structure TweetRec where
  text : String
  timestamp : Int
  sources : List Article
deriving DecidableEq, Repr

/-- `ContentTracker.tracking_data`: the three populated top-level mappings
(the `topic_clusters` placeholder is never read or written and is omitted). -/
structure TrackingData where
  articleHashes : List (String × ArticleRec)
  tokenMentions : List (String × TokenRec)
  generatedTweets : List (String × TweetRec)
deriving DecidableEq, Repr

/-- `ContentTracker._generate_content_hash`: md5 of the lower-cased content,
abstracted as the lower-cased content itself (the code relies only on equal
normalized content producing the equal key). -/
def content_hash (content : String) : String := strLower content

/-- `ContentTracker.is_article_processed`. -/
def is_article_processed (st : TrackingData) (now : Int) (a : Article) : Bool :=
  match assocFind (content_hash (a.title ++ a.summary)) st.articleHashes with
  | some rec => decide (now - rec.timestamp < 48)
  | none => false

/-- Set-union of the categories of one tweet into the accumulator
(`used_categories.update(...)`). -/
def unionInto (acc : List String) (cats : List String) : List String :=
  cats.foldl (fun a c => addIfAbsent c a) acc

/-- One step of the recent-category scan in `get_fresh_categories`. -/
def usedStep (now : Int) (acc : List String) (kv : String × TweetRec) : List String :=
  if now - 24 < kv.2.timestamp then unionInto acc (categorize_content kv.2.text) else acc

/-- The categories used by tweets generated within the last 24 hours. -/
def usedCategories (st : TrackingData) (now : Int) : List String :=
  st.generatedTweets.foldl (usedStep now) []

/-- `ContentTracker.get_fresh_categories`. -/
def get_fresh_categories (st : TrackingData) (now : Int) : List String :=
  allCategoryNames.filter (fun c => !((usedCategories st now).contains c))

/-- Increment of a category counter (`category_counts[cat] += 1`). -/
def bumpCount (k : String) : List (String × Nat) → List (String × Nat)
  | [] => []
  | (k2, n) :: rest => if k2 = k then (k2, n + 1) :: rest else (k2, n) :: bumpCount k rest

/-- `ContentTracker.is_topic_overused`. -/
def is_topic_overused (st : TrackingData) (now : Int) (a : Article) : Bool :=
  let artCats := categorize_content (a.title ++ " " ++ a.summary)
  let counts := st.generatedTweets.foldl
    (fun acc kv =>
      if now - 24 < kv.2.timestamp then
        (categorize_content kv.2.text).foldl (fun m c => bumpCount c m) acc
      else acc)
    (allCategoryNames.map (fun c => (c, 0)))
  artCats.any (fun c => decide (2 ≤ ((assocFind c counts).getD 0)))

/-- `ContentTracker.is_token_recently_mentioned`. -/
def is_token_recently_mentioned (st : TrackingData) (now : Int) (token : String)
    (hours : Int) : Bool :=
  match assocFind token st.tokenMentions with
  | some rec => decide (now - rec.lastMention < hours)
  | none => false

/-- The lower-cased whitespace-token set of a text
(`set(text.lower().split())`). -/
def wordSet (s : String) : List String := (pySplit (strLower s)).dedup

/-- The scan of `is_tweet_similar` over the stored tweets: tweets older than
the 48-hour cutoff are skipped; for the rest the Jaccard gate is evaluated,
and an empty union is a `ZeroDivisionError` (`Except.error`). -/
def jaccardGate (tokens : List String) (cutoff : Int) :
    List (String × TweetRec) → Except Unit Bool
  | [] => .ok false
  | (_, tw) :: rest =>
    if tw.timestamp < cutoff then jaccardGate tokens cutoff rest
    else
      let stored := wordSet tw.text
      let union := (tokens ++ stored).dedup
      if union.length = 0 then .error ()
      else
        let inter := tokens.filter (fun t => stored.contains t)
        if 7 * union.length < 10 * inter.length then .ok true
        else jaccardGate tokens cutoff rest

/-- `ContentTracker.is_tweet_similar` with the default threshold 0.7. -/
def is_tweet_similar (st : TrackingData) (now : Int) (tweet_text : String) :
    Except Unit Bool :=
  jaccardGate (wordSet tweet_text) (now - 48) st.generatedTweets

/-- `ContentTracker.track_article`. -/
def track_article (st : TrackingData) (now : Int) (a : Article) : TrackingData :=
  { st with
    articleHashes :=
      assocUpsert (content_hash (a.title ++ a.summary))
        ⟨a.title, a.link, a.summary, now⟩ st.articleHashes }

/-- `ContentTracker.track_token_mention`. -/
def track_token_mention (st : TrackingData) (now : Int) (token : String) : TrackingData :=
  { st with
    tokenMentions :=
      assocUpsert token
        ⟨now, ((assocFind token st.tokenMentions).map TokenRec.mentionCount).getD 0 + 1⟩
        st.tokenMentions }

/-- `ContentTracker.track_generated_tweet`. -/
def track_generated_tweet (st : TrackingData) (now : Int) (tweet_text : String)
    (sources : List Article) : TrackingData :=
  { st with
    generatedTweets :=
      assocUpsert (content_hash tweet_text) ⟨tweet_text, now, sources⟩ st.generatedTweets }

/-- `ContentTracker.cleanup_old_data`. -/
def cleanup_old_data (st : TrackingData) (now : Int) (days : Int) : TrackingData :=
  { articleHashes := st.articleHashes.filter (fun kv => now - days * 24 < kv.2.timestamp),
    tokenMentions := st.tokenMentions.filter (fun kv => now - days * 24 < kv.2.lastMention),
    generatedTweets := st.generatedTweets.filter (fun kv => now - days * 24 < kv.2.timestamp) }

/-- The operations a `ContentTracker` instance exposes on its store. -/
inductive TrackerOp where
  | isArticleProcessed (a : Article)
  | freshCategories
  | isTopicOverused (a : Article)
  | isTokenRecentlyMentioned (token : String) (hours : Int)
  | isTweetSimilar (text : String)
  | trackArticle (a : Article)
  | trackTokenMention (token : String)
  | trackGeneratedTweet (text : String) (sources : List Article)
  | cleanupOldData (days : Int)

/-- The visible result of a tracker operation. -/
inductive TrackerOut where
  | b (x : Bool)
  | cats (x : List String)
  | exn
  | unit
deriving DecidableEq, Repr

/-- Interpreter of a tracker operation over the store: each case calls the
embedded method body; the state returned is the tracker's store when the
Python method returns (the query methods contain no assignment to the store). -/
def runOp (st : TrackingData) (now : Int) : TrackerOp → TrackerOut × TrackingData
  | .isArticleProcessed a => (.b (is_article_processed st now a), st)
  | .freshCategories => (.cats (get_fresh_categories st now), st)
  | .isTopicOverused a => (.b (is_topic_overused st now a), st)
  | .isTokenRecentlyMentioned token hours => (.b (is_token_recently_mentioned st now token hours), st)
  | .isTweetSimilar text =>
    (match is_tweet_similar st now text with
     | .ok x => .b x
     | .error _ => .exn, st)
  | .trackArticle a => (.unit, track_article st now a)
  | .trackTokenMention token => (.unit, track_token_mention st now token)
  | .trackGeneratedTweet text sources => (.unit, track_generated_tweet st now text sources)
  | .cleanupOldData days => (.unit, cleanup_old_data st now days)

/-- A high-engagement external social post (`tweets` input of
`generate_tweet`; the input contract requires `text`, `username`, `likes`,
`retweets`). -/
structure SocialTweet where
  text : String
  username : String
  likes : Nat
  retweets : Nat
deriving DecidableEq, Repr

/-- Stable descending insertion by a natural-number key (Python's stable
`sorted(..., reverse=True)` / `list.sort(..., reverse=True)`). -/
def stableInsertDesc (key : α → Nat) (x : α) : List α → List α
  | [] => [x]
  | y :: ys => if key y ≤ key x then x :: y :: ys else y :: stableInsertDesc key x ys

/-- Stable descending sort by a natural-number key. -/
def stableSortDesc (key : α → Nat) : List α → List α
  | [] => []
  | x :: xs => stableInsertDesc key x (stableSortDesc key xs)

/-- Increment-or-append on the social-theme counters
(`social_themes[category] = social_themes.get(category, 0) + 1`). -/
def assocBump (k : String) : List (String × Nat) → List (String × Nat)
  | [] => [(k, 1)]
  | (k2, n) :: rest => if k2 = k then (k2, n + 1) :: rest else (k2, n) :: assocBump k rest

/-- The social-theme analysis at the top of `generate_tweet`: sort the
external posts by engagement, take the top five, and count, per category,
how many of them contain one of the category's keywords. -/
def socialThemes (tweets : List SocialTweet) : List (String × Nat) :=
  if tweets.isEmpty then []
  else
    ((stableSortDesc (fun t => t.likes + t.retweets) tweets).take 5).foldl
      (fun acc tw =>
        CATEGORIES.foldl
          (fun acc2 p =>
            if p.2.any (fun k => pyIn k (strLower tw.text)) then assocBump p.1 acc2 else acc2)
          acc)
      []

/-- The prioritized fresh-category list of `generate_tweet`: the fresh
categories (the Python `set` iteration order is abstracted as the fixed
`CATEGORIES` order), stably sorted by descending social-theme count when any
social theme was observed. -/
def orderedFresh (st : TrackingData) (now : Int) (themes : List (String × Nat)) :
    List String :=
  let fresh := get_fresh_categories st now
  if themes.isEmpty then fresh
  else stableSortDesc (fun c => ((assocFind c themes).getD 0)) fresh

/-- The `recent_patterns` dictionary computed from the last five archived
posts at the top of each attempt. -/
structure RecentPatterns where
  tokens : List String
  phrases : List String
  themes : List String
deriving DecidableEq, Repr

/-- The fixed list of tracked coin symbols in `generate_tweet`. -/
def trackedTokens : List String := ["Bitcoin", "BTC", "ETH", "Ethereum", "SOL", "Solana"]

/-- The fixed list of price-theme substrings in `generate_tweet`. -/
def priceWords : List String := ["price", "$", "ath", "high", "low"]

/-- Processing of one archived post text into the pattern accumulator: the
token scan runs first, then `tweet['tweet'].split()[0]` — an `IndexError`
(`Except.error`) when the text has no whitespace-delimited token — then the
opening-phrase and price-theme updates. -/
def patternsStep (p : RecentPatterns) (tw : String) : Except Unit RecentPatterns :=
  let toks := trackedTokens.foldl
    (fun acc tok => if pyIn (strLower tok) (strLower tw) then addIfAbsent tok acc else acc)
    p.tokens
  match pySplit tw with
  | [] => .error ()
  | w :: _ =>
    .ok ⟨toks, addIfAbsent (strLower w) p.phrases,
         if priceWords.any (fun pw => pyIn pw (strLower tw)) then addIfAbsent "price" p.themes
         else p.themes⟩

/-- The fold of `patternsStep` over a list of archived post texts. -/
def computePatternsGo (p : RecentPatterns) : List String → Except Unit RecentPatterns
  | [] => .ok p
  | tw :: rest =>
    match patternsStep p tw with
    | .error e => .error e
    | .ok p2 => computePatternsGo p2 rest

/-- The `recent_patterns` computation of `generate_tweet` over
`previous_tweets[-5:]` (empty archive gives the empty patterns). -/
def computePatterns (prev : List String) : Except Unit RecentPatterns :=
  computePatternsGo ⟨[], [], []⟩ (pyLastN 5 prev)

/-- The article filter of one attempt: keep an article iff the focus category
is among its classified categories and its title mentions none of the
recently-used tokens. -/
def filter_articles (articles : List Article) (focus : String) (tokens : List String) :
    List Article :=
  articles.filter (fun a =>
    (categorize_content (a.title ++ " " ++ a.summary)).contains focus
    && !(tokens.any (fun tok => pyIn (strLower tok) (strLower a.title))))

/-- One line of the collaborator-response parse: a `REASONING: ` line sets the
reasoning, otherwise a `TWEET: ` line sets the post text (`str.replace`
removes every occurrence of the prefix token). -/
def parseLine (acc : String × String) (line : String) : String × String :=
  if pyStartsWith "REASONING: " line then (pyReplaceAll "REASONING: " line, acc.2)
  else if pyStartsWith "TWEET: " line then (acc.1, pyReplaceAll "TWEET: " line)
  else acc

/-- The response parse of `generate_tweet`: fold over the newline-split
response, returning `(reasoning, tweet_text)` (both default `''`). -/
def parseResponse (response : String) : String × String :=
  (splitChar (Char.ofNat 10) response).foldl parseLine ("", "")

/-- The opening-phrase test on an extracted draft:
`any(phrase in tweet_text.lower().split()[0] for phrase in phrases)`.
Python evaluates the indexing once per phrase, so an empty phrase set never
indexes; a non-empty phrase set over a whitespace-only draft raises
`IndexError` (`Except.error`, caught by the surrounding `try`). -/
def firstWordCheck (phrases : List String) (tweet_text : String) : Except Unit Bool :=
  match phrases with
  | [] => .ok false
  | _ :: _ =>
    match pySplit (strLower tweet_text) with
    | [] => .error ()
    | w :: _ => .ok (phrases.any (fun p => pyIn p w))

/-- The recent-token test on an extracted draft:
`any(token.lower() in tweet_text.lower() for token in tokens)`. -/
def tokenMentionCheck (tokens : List String) (tweet_text : String) : Bool :=
  tokens.any (fun tok => pyIn (strLower tok) (strLower tweet_text))

/-- The validation step applied to one collaborator response inside the `try`
block: parse, drop an empty extraction, then reject on an opening-phrase hit
(or the `IndexError` of the first-word indexing, caught by the `except`), and
reject on a recent-token mention; an accepted draft is returned stripped.
`none` means the attempt falls through to the next loop iteration. -/
def attemptDraft (pats : RecentPatterns) (response : String) : Option (String × String) :=
  if (parseResponse response).2 = "" then none
  else
    match firstWordCheck pats.phrases (parseResponse response).2 with
    | .error _ => none
    | .ok true => none
    | .ok false =>
      if tokenMentionCheck pats.tokens (parseResponse response).2 then none
      else some (pyStrip (parseResponse response).2, pyStrip (parseResponse response).1)

/-- The bounded retry loop of `generate_tweet`.  `fuel` is the remaining
attempt budget (`max_retries` minus the attempts already made), `attempt`
the index passed to the generation collaborator `oracle` (which returns the
response text, or `Except.error` when the API call raises — caught by the
`except` and turned into a retry).  `pats` is the `recent_patterns` value:
the Python recomputes it at the top of every iteration from the unchanged
archive, so it is loop-invariant, and the `IndexError` its computation can
raise escapes on the first iteration — hoisted into `generate_tweet` below,
whose retry budget 3 is positive.  The store `st` is threaded through and
returned so that writes — of which the loop performs none — would be
observable. -/
def loopGo (st : TrackingData) (pats : RecentPatterns)
    (articles : List Article) (oracle : Nat → Except Unit String)
    (freshCats : List String) :
    List String → Nat → Nat → (Except Unit (Option (String × String))) × TrackingData
  | _, _, 0 => (.ok none, st)
  | tried, attempt, fuel + 1 =>
    match freshCats.filter (fun c => !(tried.contains c)) with
    | [] => (.ok none, st)
    | focus :: _ =>
      if (filter_articles articles focus pats.tokens).isEmpty then
        loopGo st pats articles oracle freshCats (tried ++ [focus]) (attempt + 1) fuel
      else
        match oracle attempt with
        | .error _ => loopGo st pats articles oracle freshCats (tried ++ [focus]) (attempt + 1) fuel
        | .ok response =>
          match attemptDraft pats response with
          | some out => (.ok (some out), st)
          | none => loopGo st pats articles oracle freshCats (tried ++ [focus]) (attempt + 1) fuel

/-- `agents/agent.py generate_tweet`: social-theme analysis, fresh-category
prioritization, the `recent_patterns` computation (whose `IndexError` on an
archived post without tokens escapes uncaught), then the retry loop with
`max_retries = 3`.  `prev` is the
list of archived post texts (`tweets_archive['tweets'][i]['tweet']`); the
trending-pool input only feeds the prompt text and is absorbed into the
oracle. -/
def generate_tweet (st : TrackingData) (now : Int) (articles : List Article)
    (socialTweets : List SocialTweet) (prev : List String)
    (oracle : Nat → Except Unit String) :
    (Except Unit (Option (String × String))) × TrackingData :=
  match computePatterns prev with
  | .error e => (.error e, st)
  | .ok pats =>
    loopGo st pats articles oracle (orderedFresh st now (socialThemes socialTweets)) [] 0 3

/-- A trending pool as consumed by the tracking branch of
`main.py generate_and_post_tweet`. -/
structure GeckoPool where
  base_token : String
  quote_token : String
deriving DecidableEq, Repr

/-- The caller-side tail of `main.py generate_and_post_tweet` after
`generate_tweet` returns: an empty or raised result ends the cycle; otherwise
`is_tweet_similar` gates the post — a raised `ZeroDivisionError` is absorbed
by the surrounding broad `except`, a `true` verdict skips the cycle; only
after a successful external post are the articles, the pool tokens and the
generated post tracked. -/
def post_pipeline (st : TrackingData) (now : Int)
    (genResult : Except Unit (Option (String × String)))
    (articles : List Article) (pools : List GeckoPool) (postSuccess : Bool) :
    Option (String × String) × TrackingData :=
  match genResult with
  | .error _ => (none, st)
  | .ok none => (none, st)
  | .ok (some (tweet_text, reasoning)) =>
    match is_tweet_similar st now tweet_text with
    | .error _ => (none, st)
    | .ok true => (none, st)
    | .ok false =>
      if postSuccess then
        let st1 := articles.foldl (fun s a => track_article s now a) st
        let st2 := pools.foldl
          (fun s p => track_token_mention (track_token_mention s now p.base_token) now p.quote_token) st1
        (some (tweet_text, reasoning), track_generated_tweet st2 now tweet_text articles)
      else (some (tweet_text, reasoning), st)

theorem addIfAbsent_mem (x y : String) (l : List String) :
    x ∈ addIfAbsent y l ↔ x = y ∨ x ∈ l := by
  unfold addIfAbsent
  split
  · rename_i h
    have hy : y ∈ l := by simpa [List.contains, List.elem_iff] using h
    constructor
    · exact fun hx => Or.inr hx
    · rintro (rfl | hx)
      · exact hy
      · exact hx
  · simp [List.mem_append, or_comm]

theorem mem_unionInto (cats : List String) : ∀ (acc : List String) (x : String),
    x ∈ unionInto acc cats ↔ x ∈ acc ∨ x ∈ cats := by
  induction cats with
  | nil => intro acc x; simp [unionInto]
  | cons c cs ih =>
    intro acc x
    have hstep : unionInto acc (c :: cs) = unionInto (addIfAbsent c acc) cs := rfl
    rw [hstep, ih, addIfAbsent_mem]
    simp [List.mem_cons]
    tauto

theorem mem_usedFold (now : Int) (l : List (String × TweetRec)) :
    ∀ (acc : List String) (c : String),
    c ∈ l.foldl (usedStep now) acc ↔
      c ∈ acc ∨ ∃ kv, kv ∈ l ∧ now - 24 < kv.2.timestamp ∧ c ∈ categorize_content kv.2.text := by
  induction l with
  | nil => intro acc c; simp
  | cons kv rest ih =>
    intro acc c
    rw [List.foldl_cons, ih]
    unfold usedStep
    split
    · rename_i h
      rw [mem_unionInto]
      constructor
      · rintro ((hc | hc) | ⟨kv2, h1, h2, h3⟩)
        · exact Or.inl hc
        · exact Or.inr ⟨kv, List.mem_cons_self kv rest, h, hc⟩
        · exact Or.inr ⟨kv2, List.mem_cons_of_mem kv h1, h2, h3⟩
      · rintro (hc | ⟨kv2, h1, h2, h3⟩)
        · exact Or.inl (Or.inl hc)
        · rcases List.mem_cons.mp h1 with rfl | h1
          · exact Or.inl (Or.inr h3)
          · exact Or.inr ⟨kv2, h1, h2, h3⟩
    · rename_i h
      constructor
      · rintro (hc | ⟨kv2, h1, h2, h3⟩)
        · exact Or.inl hc
        · exact Or.inr ⟨kv2, List.mem_cons_of_mem kv h1, h2, h3⟩
      · rintro (hc | ⟨kv2, h1, h2, h3⟩)
        · exact Or.inl hc
        · rcases List.mem_cons.mp h1 with rfl | h1
          · exact absurd h2 h
          · exact Or.inr ⟨kv2, h1, h2, h3⟩

theorem assocFind_upsert_self (k : String) (v : α) :
    ∀ (l : List (String × α)), assocFind k (assocUpsert k v l) = some v := by
  intro l
  induction l with
  | nil => simp [assocUpsert, assocFind]
  | cons kv rest ih =>
    obtain ⟨k2, v2⟩ := kv
    unfold assocUpsert
    split
    · simp [assocFind]
    · rename_i h
      unfold assocFind
      rw [if_neg h]
      exact ih

theorem isPrefixOf_self (l : List Char) : l.isPrefixOf l = true := by
  induction l with
  | nil => rfl
  | cons c rest ih => simp [List.isPrefixOf, ih]

theorem pyIn_refl (s : String) : pyIn s s = true := by
  unfold pyIn
  cases h : s.data with
  | nil => simp [subListAux]
  | cons c rest => simp [subListAux, isPrefixOf_self]

theorem mem_tokenFold (tw : String) (l : List String) : ∀ (acc : List String) (x : String),
    x ∈ l.foldl
      (fun a tok => if pyIn (strLower tok) (strLower tw) then addIfAbsent tok a else a) acc ↔
    x ∈ acc ∨ (x ∈ l ∧ pyIn (strLower x) (strLower tw) = true) := by
  induction l with
  | nil => intro acc x; simp
  | cons t ts ih =>
    intro acc x
    rw [List.foldl_cons, ih]
    by_cases h : pyIn (strLower t) (strLower tw) = true
    · rw [if_pos h, addIfAbsent_mem]
      constructor
      · rintro ((rfl | hx) | ⟨h1, h2⟩)
        · exact Or.inr ⟨List.mem_cons_self _ _, h⟩
        · exact Or.inl hx
        · exact Or.inr ⟨List.mem_cons_of_mem t h1, h2⟩
      · rintro (hx | ⟨h1, h2⟩)
        · exact Or.inl (Or.inr hx)
        · rcases List.mem_cons.mp h1 with rfl | h1
          · exact Or.inl (Or.inl rfl)
          · exact Or.inr ⟨h1, h2⟩
    · rw [if_neg h]
      constructor
      · rintro (hx | ⟨h1, h2⟩)
        · exact Or.inl hx
        · exact Or.inr ⟨List.mem_cons_of_mem t h1, h2⟩
      · rintro (hx | ⟨h1, h2⟩)
        · exact Or.inl hx
        · rcases List.mem_cons.mp h1 with rfl | h1
          · exact absurd h2 h
          · exact Or.inr ⟨h1, h2⟩

theorem patternsStep_tokens (p : RecentPatterns) (tw : String) (q : RecentPatterns)
    (h : patternsStep p tw = .ok q) :
    q.tokens = trackedTokens.foldl
      (fun acc tok => if pyIn (strLower tok) (strLower tw) then addIfAbsent tok acc else acc)
      p.tokens := by
  unfold patternsStep at h
  split at h
  · exact absurd h (by simp)
  · rw [show q = _ from (Except.ok.inj h).symm]

theorem patternsStep_ok (p : RecentPatterns) (tw : String) (h : pySplit tw ≠ []) :
    ∃ q, patternsStep p tw = .ok q := by
  unfold patternsStep
  split
  · rename_i heq
    exact absurd heq h
  · exact ⟨_, rfl⟩

theorem computePatternsGo_tokens_mono : ∀ (l : List String) (p q : RecentPatterns),
    computePatternsGo p l = .ok q → ∀ x, x ∈ p.tokens → x ∈ q.tokens := by
  intro l
  induction l with
  | nil =>
    intro p q h x hx
    simp only [computePatternsGo, Except.ok.injEq] at h
    subst h
    exact hx
  | cons tw rest ih =>
    intro p q h x hx
    unfold computePatternsGo at h
    split at h
    · exact absurd h (by simp)
    · rename_i p2 hstep
      refine ih p2 q h x ?_
      rw [patternsStep_tokens p tw p2 hstep, mem_tokenFold]
      exact Or.inl hx

theorem computePatternsGo_tokens_mem : ∀ (l : List String) (p q : RecentPatterns),
    computePatternsGo p l = .ok q → ∀ tw, tw ∈ l → ∀ x, x ∈ trackedTokens →
    pyIn (strLower x) (strLower tw) = true → x ∈ q.tokens := by
  intro l
  induction l with
  | nil => intro p q _ tw htw; exact absurd htw (List.not_mem_nil tw)
  | cons tw0 rest ih =>
    intro p q h tw htw x hxtok hxin
    unfold computePatternsGo at h
    split at h
    · exact absurd h (by simp)
    · rename_i p2 hstep
      rcases List.mem_cons.mp htw with rfl | htw
      · refine computePatternsGo_tokens_mono rest p2 q h x ?_
        rw [patternsStep_tokens p tw p2 hstep, mem_tokenFold]
        exact Or.inr ⟨hxtok, hxin⟩
      · exact ih p2 q h tw htw x hxtok hxin

theorem computePatternsGo_ok : ∀ (l : List String) (p : RecentPatterns),
    (∀ tw, tw ∈ l → pySplit tw ≠ []) → ∃ q, computePatternsGo p l = .ok q := by
  intro l
  induction l with
  | nil => intro p _; exact ⟨p, rfl⟩
  | cons tw rest ih =>
    intro p hall
    obtain ⟨p2, hp2⟩ := patternsStep_ok p tw (hall tw (List.mem_cons_self tw rest))
    obtain ⟨q, hq⟩ := ih p2 (fun tw2 h2 => hall tw2 (List.mem_cons_of_mem tw h2))
    refine ⟨q, ?_⟩
    unfold computePatternsGo
    rw [hp2]
    exact hq

theorem attemptDraft_some (pats : RecentPatterns) (response : String) (out : String × String)
    (h : attemptDraft pats response = some out) :
    ∃ s r, parseResponse response = (r, s) ∧ s ≠ "" ∧
      firstWordCheck pats.phrases s = .ok false ∧
      tokenMentionCheck pats.tokens s = false ∧
      out = (pyStrip s, pyStrip r) := by
  unfold attemptDraft at h
  split at h
  · exact absurd h (by simp)
  · rename_i hne
    split at h
    · exact absurd h (by simp)
    · exact absurd h (by simp)
    · rename_i hfw
      split at h
      · exact absurd h (by simp)
      · rename_i htok
        refine ⟨(parseResponse response).2, (parseResponse response).1, rfl, hne, hfw, ?_, ?_⟩
        · simpa using htok
        · exact (Option.some.inj h).symm

theorem loopGo_snd (st : TrackingData) (pats : RecentPatterns)
    (articles : List Article) (oracle : Nat → Except Unit String)
    (freshCats : List String) : ∀ (fuel : Nat) (tried : List String) (attempt : Nat),
    (loopGo st pats articles oracle freshCats tried attempt fuel).2 = st := by
  intro fuel
  induction fuel with
  | zero => intro tried attempt; rfl
  | succ n ih =>
    intro tried attempt
    unfold loopGo
    split
    · rfl
    · split
      · exact ih _ _
      · split
        · exact ih _ _
        · split
          · rfl
          · exact ih _ _

theorem loopGo_accept (st : TrackingData) (pats : RecentPatterns)
    (articles : List Article) (oracle : Nat → Except Unit String)
    (freshCats : List String) : ∀ (fuel : Nat) (tried : List String) (attempt : Nat)
    (out : String × String),
    (loopGo st pats articles oracle freshCats tried attempt fuel).1 = .ok (some out) →
    ∃ s r, s ≠ "" ∧ firstWordCheck pats.phrases s = .ok false ∧
      tokenMentionCheck pats.tokens s = false ∧ out = (pyStrip s, pyStrip r) := by
  intro fuel
  induction fuel with
  | zero => intro tried attempt out h; exact absurd h (by simp [loopGo])
  | succ n ih =>
    intro tried attempt out h
    unfold loopGo at h
    split at h
    · exact absurd h (by simp)
    · split at h
      · exact ih _ _ _ h
      · split at h
        · exact ih _ _ _ h
        · split at h
          · rename_i out2 hdraft
            obtain ⟨s, r, _, hne, hfw, htok, hout⟩ :=
              attemptDraft_some pats _ out2 hdraft
            have hoo : out2 = out := Option.some.inj (Except.ok.inj h)
            exact ⟨s, r, hne, hfw, htok, hoo ▸ hout⟩
          · exact ih _ _ _ h

theorem loopGo_no_error (st : TrackingData) (pats : RecentPatterns)
    (articles : List Article) (oracle : Nat → Except Unit String)
    (freshCats : List String) : ∀ (fuel : Nat) (tried : List String) (attempt : Nat),
    ∃ r, (loopGo st pats articles oracle freshCats tried attempt fuel).1 = .ok r := by
  intro fuel
  induction fuel with
  | zero => intro tried attempt; exact ⟨none, rfl⟩
  | succ n ih =>
    intro tried attempt
    unfold loopGo
    split
    · exact ⟨none, rfl⟩
    · split
      · exact ih _ _
      · split
        · exact ih _ _
        · split
          · rename_i out2 _
            exact ⟨some out2, rfl⟩
          · exact ih _ _

/-- An empty tracker store. -/
def exStoreEmpty : TrackingData := ⟨[], [], []⟩

/-- A store holding one generated post "hello world" recorded at hour 1000. -/
def exStoreSimilar : TrackingData := ⟨[], [], [("h", ⟨"hello world", 1000, []⟩)]⟩

/-- A store holding one generated post with empty text recorded at hour 100. -/
def exStoreEmptyText : TrackingData := ⟨[], [], [("h", ⟨"", 100, []⟩)]⟩

/-- A candidate article classified under the price category. -/
def exArtPrice : Article := ⟨"market rally", "u1", ""⟩

/-- A candidate article classified under the price category. -/
def exArtMarket : Article := ⟨"Strong market rally ahead", "u2", ""⟩

/-- A candidate article classified under the innovation category. -/
def exArtProtocol : Article := ⟨"New protocol launch announced", "u3", ""⟩

/-- A generation collaborator answering the first attempt with a post
identical to the stored post of `exStoreSimilar`. -/
def exOracleHello : Nat → Except Unit String :=
  fun n => if n = 0 then .ok "TWEET: hello world" else .error ()

/-- A generation collaborator whose first draft opens with "Bitcoin" and
whose second draft does not. -/
def exOracleScenario : Nat → Except Unit String :=
  fun n =>
    if n = 0 then .ok "TWEET: Bitcoin leads again"
    else if n = 1 then .ok "TWEET: Layer2 progress is real"
    else .error ()

/-- C2: at the failing input — an empty candidate text against a stored
recent post with empty text — `is_tweet_similar` evaluates
`len(tweet_tokens | stored_tokens)` to 0 and raises `ZeroDivisionError`
(embedded `Except.error`), instead of treating the similarity as 0 as the
specified edge case demands. -/
theorem is_tweet_similar_zero_division :
    is_tweet_similar exStoreEmptyText 100 "" = .error () := rfl

/-- C4: `_categorize_content` returns a subset of the fixed eight-category
set; a category is a member iff at least one of its fixed keywords occurs
as a case-insensitive substring of the text; the empty text yields the
empty set.  (Determinism is inherent: the embedding is a function.) -/
theorem categorize_content_spec :
    (∀ text c, c ∈ categorize_content text → c ∈ allCategoryNames) ∧
    (∀ text c, c ∈ categorize_content text ↔
      ∃ kws, (c, kws) ∈ CATEGORIES ∧ ∃ k, k ∈ kws ∧ pyIn k (strLower text) = true) ∧
    categorize_content "" = [] := by
  refine ⟨?_, ?_, by decide⟩
  · intro text c hc
    unfold categorize_content at hc
    unfold allCategoryNames
    obtain ⟨p, hp, hpc⟩ := List.mem_map.mp hc
    exact hpc ▸ List.mem_map_of_mem Prod.fst (List.mem_of_mem_filter hp)
  · intro text c
    unfold categorize_content
    constructor
    · intro hc
      obtain ⟨⟨c1, kws⟩, hp, hpc⟩ := List.mem_map.mp hc
      obtain ⟨k, hk, hin⟩ := List.any_eq_true.mp (List.mem_filter.mp hp).2
      exact ⟨kws, by simpa [← hpc] using List.mem_of_mem_filter hp, k, hk, hin⟩
    · rintro ⟨kws, hmem, k, hk, hin⟩
      exact List.mem_map.mpr
        ⟨(c, kws), List.mem_filter.mpr ⟨hmem, List.any_eq_true.mpr ⟨k, hk, hin⟩⟩, rfl⟩

/-- C4 witness: the classification of "market rally" contains "price", and
the theorem places it inside the fixed category set. -/
theorem categorize_content_spec_witness : "price" ∈ allCategoryNames :=
  categorize_content_spec.1 "market rally" "price" (by decide)

/-- C6: immediately after `track_article`, `is_article_processed` answers
true for any article with the same normalized (lower-cased) title+summary
text — identical normalized text yields the identical store key — and once
more than 48 hours have elapsed since tracking it answers false. -/
theorem track_then_processed (st : TrackingData) (now : Int) (a a2 : Article)
    (h : strLower (a2.title ++ a2.summary) = strLower (a.title ++ a.summary))
    (d : Int) (hd : 48 < d) :
    is_article_processed (track_article st now a) now a2 = true ∧
    is_article_processed (track_article st now a) (now + d) a2 = false := by
  have hkey : content_hash (a2.title ++ a2.summary) = content_hash (a.title ++ a.summary) := h
  constructor
  · unfold is_article_processed track_article
    simp only [hkey, assocFind_upsert_self]
    simp only [decide_eq_true_eq]
    omega
  · unfold is_article_processed track_article
    simp only [hkey, assocFind_upsert_self]
    simp only [decide_eq_false_iff_not]
    omega

/-- C6 witness: tracking a concrete article makes it processed at the same
instant and unprocessed 49 hours later. -/
theorem track_then_processed_witness :
    is_article_processed (track_article exStoreEmpty 0 exArtPrice) 0 exArtPrice = true ∧
    is_article_processed (track_article exStoreEmpty 0 exArtPrice) (0 + 49) exArtPrice = false :=
  track_then_processed exStoreEmpty 0 exArtPrice exArtPrice rfl 49 (by decide)

/-- C10: each of the five query operations of the tracker — article-processed,
fresh-categories, topic-overused, token-recently-mentioned and the similarity
gate — leaves the persisted store exactly as it was; only the track and
cleanup operations produce a new store. -/
theorem tracker_queries_leave_store_unchanged :
    ∀ (st : TrackingData) (now hours : Int) (a a2 : Article) (token text : String),
      (runOp st now (.isArticleProcessed a)).2 = st ∧
      (runOp st now .freshCategories).2 = st ∧
      (runOp st now (.isTopicOverused a2)).2 = st ∧
      (runOp st now (.isTokenRecentlyMentioned token hours)).2 = st ∧
      (runOp st now (.isTweetSimilar text)).2 = st := by
  intro st now hours a a2 token text
  exact ⟨rfl, rfl, rfl, rfl, rfl⟩

theorem not_contains_iff (l : List String) (c : String) :
    (!(l.contains c)) = true ↔ c ∉ l := by
  simp [List.contains, List.elem_iff]

/-- C5: `get_fresh_categories` is exactly the fixed category set minus the
union of the categories classified from posts generated within the last 24
hours; with no post in that window it is the full fixed category set. -/
theorem fresh_categories_spec :
    (∀ st now c, c ∈ get_fresh_categories st now ↔
      c ∈ allCategoryNames ∧ ∀ kv, kv ∈ st.generatedTweets →
        now - 24 < kv.2.timestamp → c ∉ categorize_content kv.2.text) ∧
    (∀ st now, (∀ kv, kv ∈ st.generatedTweets → ¬(now - 24 < kv.2.timestamp)) →
      get_fresh_categories st now = allCategoryNames) := by
  have hused : ∀ (st : TrackingData) (now : Int) (c : String),
      c ∈ usedCategories st now ↔
      ∃ kv, kv ∈ st.generatedTweets ∧ now - 24 < kv.2.timestamp ∧
        c ∈ categorize_content kv.2.text := by
    intro st now c
    unfold usedCategories
    rw [mem_usedFold]
    simp
  constructor
  · intro st now c
    unfold get_fresh_categories
    rw [List.mem_filter, not_contains_iff, hused]
    constructor
    · rintro ⟨h1, h2⟩
      exact ⟨h1, fun kv hkv hts hc => h2 ⟨kv, hkv, hts, hc⟩⟩
    · rintro ⟨h1, h2⟩
      exact ⟨h1, fun hex => hex.elim (fun kv hkv => h2 kv hkv.1 hkv.2.1 hkv.2.2)⟩
  · intro st now h
    unfold get_fresh_categories
    apply List.filter_eq_self.mpr
    intro c _
    rw [not_contains_iff, hused]
    rintro ⟨kv, hkv, hts, _⟩
    exact h kv hkv hts

/-- C5 witness: with an empty store every category is fresh. -/
theorem fresh_categories_spec_witness :
    get_fresh_categories exStoreEmpty 500 = allCategoryNames :=
  fresh_categories_spec.2 exStoreEmpty 500 (by intro kv hkv; cases hkv)

/-- C3: the retry loop returns the empty result both when the attempt budget
is exhausted and when no untried fresh category remains, and on every path —
accepting or not — it leaves the tracker store untouched (it performs no
track or persist call); in particular the full `generate_tweet` with its
budget of 3 never changes the store. -/
theorem loop_exhaustion_empty_no_writes :
    (∀ st pats articles oracle freshCats tried attempt,
      loopGo st pats articles oracle freshCats tried attempt 0 = (.ok none, st)) ∧
    (∀ st pats articles oracle freshCats tried attempt fuel,
      freshCats.filter (fun c => !(tried.contains c)) = [] →
      loopGo st pats articles oracle freshCats tried attempt (fuel + 1) = (.ok none, st)) ∧
    (∀ st pats articles oracle freshCats tried attempt fuel,
      (loopGo st pats articles oracle freshCats tried attempt fuel).2 = st) ∧
    (∀ st now articles socialTweets prev oracle,
      (generate_tweet st now articles socialTweets prev oracle).2 = st) := by
  refine ⟨?_, ?_, ?_, ?_⟩
  · intro st pats articles oracle freshCats tried attempt
    rfl
  · intro st pats articles oracle freshCats tried attempt fuel h
    unfold loopGo
    rw [h]
  · intro st pats articles oracle freshCats tried attempt fuel
    exact loopGo_snd st pats articles oracle freshCats fuel tried attempt
  · intro st now articles socialTweets prev oracle
    unfold generate_tweet
    split
    · rfl
    · exact loopGo_snd st _ articles oracle _ 3 [] 0

/-- C3 witness: an exhausted fresh-category list at full budget returns the
empty result and the unchanged store. -/
theorem loop_exhaustion_empty_no_writes_witness :
    loopGo exStoreEmpty ⟨[], [], []⟩ [] (fun _ => .error ()) [] [] 0 3
      = (.ok none, exStoreEmpty) :=
  loop_exhaustion_empty_no_writes.2.1 exStoreEmpty ⟨[], [], []⟩ [] (fun _ => .error ())
    [] [] 0 2 rfl

/-- C7: an article survives the per-attempt filter iff the focus category is
among its classified categories and its title mentions no excluded token;
consequently, when a post of the last five archived posts mentions "ETH",
every candidate article whose title contains "ETH" (case-insensitively) is
excluded for that attempt. -/
theorem article_filter_spec :
    (∀ articles focus tokens a,
      a ∈ filter_articles articles focus tokens ↔
        a ∈ articles ∧
        (categorize_content (a.title ++ " " ++ a.summary)).contains focus = true ∧
        tokens.any (fun tok => pyIn (strLower tok) (strLower a.title)) = false) ∧
    (∀ prev pats, computePatterns prev = .ok pats →
      ∀ tw, tw ∈ pyLastN 5 prev → pyIn "eth" (strLower tw) = true →
      ∀ articles focus a, pyIn "eth" (strLower a.title) = true →
        a ∉ filter_articles articles focus pats.tokens) := by
  have hpart1 : ∀ (articles : List Article) (focus : String) (tokens : List String)
      (a : Article),
      a ∈ filter_articles articles focus tokens ↔
        a ∈ articles ∧
        (categorize_content (a.title ++ " " ++ a.summary)).contains focus = true ∧
        tokens.any (fun tok => pyIn (strLower tok) (strLower a.title)) = false := by
    intro articles focus tokens a
    unfold filter_articles
    rw [List.mem_filter]
    simp [Bool.and_eq_true, Bool.not_eq_true']
  refine ⟨hpart1, ?_⟩
  intro prev pats hpats tw htw htweth articles focus a hartin hmem
  have heth : strLower "ETH" = "eth" := by decide
  have htokmem : "ETH" ∈ pats.tokens :=
    computePatternsGo_tokens_mem (pyLastN 5 prev) ⟨[], [], []⟩ pats hpats tw htw "ETH"
      (by decide) (heth ▸ htweth)
  have hany : pats.tokens.any (fun tok => pyIn (strLower tok) (strLower a.title)) = true :=
    List.any_eq_true.mpr ⟨"ETH", htokmem, heth ▸ hartin⟩
  have := ((hpart1 articles focus pats.tokens a).mp hmem).2.2
  rw [this] at hany
  exact Bool.false_ne_true hany

/-- C7 witness: with no excluded tokens, a price article survives the filter
for the price category. -/
theorem article_filter_spec_witness :
    exArtMarket ∈ filter_articles [exArtMarket] "price" [] :=
  (article_filter_spec.1 [exArtMarket] "price" [] exArtMarket).mpr
    ⟨by decide, by decide, by decide⟩

/-- C8: a draft accepted by the retry loop passed the two pattern checks —
its first word triggers no opening-phrase hit and it mentions no excluded
token — so a draft whose first word equals a recent opening phrase, or that
mentions a recent token (both of which force the respective check to fire,
as the middle conjuncts state), is rejected and the loop retries instead of
accepting; concretely, with two archived posts opening with "Bitcoin", a
first draft opening with "Bitcoin" is rejected and the retry is accepted
under the next category. -/
theorem draft_pattern_rejection_spec :
    (∀ st pats articles oracle freshCats fuel tried attempt out,
      (loopGo st pats articles oracle freshCats tried attempt fuel).1 = .ok (some out) →
      ∃ s r, s ≠ "" ∧ firstWordCheck pats.phrases s = .ok false ∧
        tokenMentionCheck pats.tokens s = false ∧ out = (pyStrip s, pyStrip r)) ∧
    (∀ (phrases : List String) s w rest, pySplit (strLower s) = w :: rest →
      w ∈ phrases → firstWordCheck phrases s = .ok true) ∧
    (∀ (tokens : List String) s tok, tok ∈ tokens →
      pyIn (strLower tok) (strLower s) = true → tokenMentionCheck tokens s = true) ∧
    (generate_tweet exStoreEmpty 500 [exArtMarket, exArtProtocol] []
        ["Bitcoin soars today", "Bitcoin dips slightly"] exOracleScenario).1
      = .ok (some ("Layer2 progress is real", "")) := by
  refine ⟨?_, ?_, ?_, rfl⟩
  · intro st pats articles oracle freshCats fuel tried attempt out h
    exact loopGo_accept st pats articles oracle freshCats fuel tried attempt out h
  · intro phrases s w rest hsplit hw
    cases phrases with
    | nil => exact absurd hw (List.not_mem_nil w)
    | cons p ps =>
      unfold firstWordCheck
      rw [hsplit]
      simp only [Except.ok.injEq]
      exact List.any_eq_true.mpr ⟨w, hw, pyIn_refl w⟩
  · intro tokens s tok h1 h2
    exact List.any_eq_true.mpr ⟨tok, h1, h2⟩

/-- C8 witness: the archived opening phrase "bitcoin" fires the opening-phrase
check on a draft opening with "Bitcoin". -/
theorem draft_pattern_rejection_spec_witness :
    firstWordCheck ["bitcoin"] "Bitcoin leads again" = .ok true :=
  draft_pattern_rejection_spec.2.1 ["bitcoin"] "Bitcoin leads again" "bitcoin"
    ["leads", "again"] (by decide) (by decide)

/-- C9 counterexample: with an archive containing a post whose text is empty,
the selection loop raises (`IndexError` from `tweet['tweet'].split()[0]`,
embedded `Except.error`) out to its caller instead of degrading to a retry
or the empty result. -/
theorem generate_tweet_raises_on_empty_archived_post :
    (generate_tweet exStoreEmpty 500 [] [] [""] (fun _ => .error ())).1 = .error () := rfl

/-- C9 (amended): whenever every archived post text contains at least one
whitespace-delimited token, the selection loop never raises to its caller:
malformed collaborator output, pattern rejection, an empty filtered article
set and a raised generation call all degrade to a retry or to the empty
result. -/
theorem generate_tweet_no_raise_when_archive_tokenized
    (st : TrackingData) (now : Int) (articles : List Article)
    (socialTweets : List SocialTweet) (prev : List String)
    (oracle : Nat → Except Unit String)
    (h : ∀ tw, tw ∈ prev → pySplit tw ≠ []) :
    ∃ r, (generate_tweet st now articles socialTweets prev oracle).1 = .ok r := by
  obtain ⟨pats, hpats⟩ := computePatternsGo_ok (pyLastN 5 prev) ⟨[], [], []⟩
    (fun tw htw => h tw (List.drop_subset _ prev htw))
  unfold generate_tweet computePatterns
  rw [hpats]
  exact loopGo_no_error st pats articles oracle _ 3 [] 0

/-- C9 witness: a one-post archive whose text tokenizes yields a non-raising
run. -/
theorem generate_tweet_no_raise_when_archive_tokenized_witness :
    ∃ r, (generate_tweet exStoreEmpty 500 [] [] ["hello there"]
      (fun _ => .error ())).1 = .ok r :=
  generate_tweet_no_raise_when_archive_tokenized exStoreEmpty 500 [] [] ["hello there"]
    (fun _ => .error ()) (by decide)

/-- C1 counterexample: the retry loop performs no similarity check — on a
store whose only recent post is "hello world" it returns as accepted the
draft "hello world", a post for which `is_tweet_similar` answers true. -/
theorem generate_tweet_accepts_similar_post :
    (generate_tweet exStoreSimilar 1000 [exArtPrice] [] [] exOracleHello).1
      = .ok (some ("hello world", "")) ∧
    is_tweet_similar exStoreSimilar 1000 "hello world" = .ok true :=
  ⟨rfl, rfl⟩

/-- C1 (amended): the similarity gate lives in the orchestrating caller, after
the loop returns: when `is_tweet_similar` judges the accepted text too
similar, the caller ends the cycle with no post and no retry, leaving the
store unchanged — so a too-similar post is never posted or tracked. -/
theorem similarity_gate_skips_in_caller (st : TrackingData) (now : Int)
    (t r : String) (articles : List Article) (pools : List GeckoPool)
    (postSuccess : Bool) (h : is_tweet_similar st now t = .ok true) :
    post_pipeline st now (.ok (some (t, r))) articles pools postSuccess = (none, st) := by
  unfold post_pipeline
  simp [h]

/-- C1 witness: the caller skips the too-similar accepted post of the
counterexample run and leaves the store as it was. -/
theorem similarity_gate_skips_in_caller_witness :
    post_pipeline exStoreSimilar 1000 (.ok (some ("hello world", ""))) [] [] true
      = (none, exStoreSimilar) :=
  similarity_gate_skips_in_caller exStoreSimilar 1000 "hello world" "" [] [] true rfl
